import Mathlib

/-!
Shallow embedding of the glimpse CLI option surface and resolver
(src/cli.rs). Rust `PathBuf` values are modelled as `String`s, `u64` and
`usize` as `Nat`. Filesystem existence probes (`Path::exists`) are
abstracted as an explicit Boolean predicate on path strings, supplied as
a parameter to the functions that probe the filesystem.
-/

/-- Output format enum from src/cli.rs. -/
inductive OutputFormat
  | Tree
  | Files
  | Both
deriving DecidableEq

/-- Tokenizer selection enum from src/cli.rs. -/
inductive TokenizerType
  | Tiktoken
  | HuggingFace
deriving DecidableEq

/-- Exclude entry: a literal filesystem path or a glob pattern (src/cli.rs). -/
inductive Exclude
  | File (path : String)
  | Pattern (s : String)
deriving DecidableEq

/-- Whether a tokenizer type is the HuggingFace variant, mirroring the Rust
test matches(t, TokenizerType::HuggingFace). -/
def TokenizerType.isHuggingFace : TokenizerType → Bool
  | TokenizerType.HuggingFace => true
  | TokenizerType.Tiktoken => false

/-- Modelled from the spec: the ConfigProfile record (the `Config` type lives
in src/config.rs, which is not among the available sources; its fields are
taken from the spec's ConfigProfile description and from the field accesses
in `Cli::parse_with_config`). All fields are populated defaults. -/
structure Config where
  max_size : Nat
  max_depth : Nat
  default_output_format : OutputFormat
  default_excludes : List Exclude
  default_tokenizer : String
  default_tokenizer_model : String
deriving DecidableEq

/-- The Cli option surface from src/cli.rs. The Rust field `include` is
renamed `include_patterns` because `include` is a Lean keyword. -/
structure Cli where
  paths : List String
  config_path : Bool
  include_patterns : Option (List String)
  exclude : Option (List Exclude)
  max_size : Option Nat
  max_depth : Option Nat
  output : Option OutputFormat
  file : Option String
  print : Bool
  threads : Option Nat
  hidden : Bool
  no_ignore : Bool
  no_tokens : Bool
  tokenizer : Option TokenizerType
  model : Option String
  tokenizer_file : Option String
  interactive : Bool
  pdf : Option String
deriving DecidableEq

/-- The resolution/merge step of `Cli::parse_with_config` (src/cli.rs,
lines 107-146), taking the already-parsed `Cli` and the loaded `Config`.
Mutation of `cli` in the Rust code becomes a functional record update. -/
def Cli.parse_with_config (cli : Cli) (config : Config) : Cli :=
  let max_size := cli.max_size.or (some config.max_size)
  let max_depth := cli.max_depth.or (some config.max_depth)
  let output := cli.output.or (some config.default_output_format)
  let exclude :=
    match cli.exclude with
    | some excludes => some (excludes ++ config.default_excludes)
    | none => some config.default_excludes
  let tokenizer :=
    if !cli.no_tokens && cli.tokenizer.isNone then
      some (if config.default_tokenizer = "huggingface" then
              TokenizerType.HuggingFace
            else
              TokenizerType.Tiktoken)
    else
      cli.tokenizer
  let model :=
    if (match tokenizer with
        | some t => t.isHuggingFace
        | none => false)
        && cli.model.isNone && cli.tokenizer_file.isNone then
      some config.default_tokenizer_model
    else
      cli.model
  { cli with
    max_size := max_size
    max_depth := max_depth
    output := output
    exclude := exclude
    tokenizer := tokenizer
    model := model }

/-- Validation of a path argument (src/cli.rs `validate_path`); `fs`
abstracts filesystem existence of the string interpreted as a path. -/
def validate_path (fs : String → Bool) (path : String) : Except String String :=
  if !(fs path) then
    Except.error ("Path \x27" ++ path ++ "\x27 does not exist")
  else
    Except.ok path

/-- Classification of a raw exclude token (src/cli.rs `parse_exclude`);
`fs` abstracts filesystem existence of the string as a path. -/
def parse_exclude (fs : String → Bool) (value : String) : Except String Exclude :=
  if fs value then
    Except.ok (Exclude.File value)
  else
    Except.ok (Exclude.Pattern value)

/-- A Cli with every optional field absent and every flag false. -/
def emptyCli : Cli :=
  { paths := ["."]
    config_path := false
    include_patterns := none
    exclude := none
    max_size := none
    max_depth := none
    output := none
    file := none
    print := false
    threads := none
    hidden := false
    no_ignore := false
    no_tokens := false
    tokenizer := none
    model := none
    tokenizer_file := none
    interactive := false
    pdf := none }

/-- A sample Config with empty default excludes and a tiktoken default. -/
def sampleConfig : Config :=
  { max_size := 100000
    max_depth := 20
    default_output_format := OutputFormat.Both
    default_excludes := []
    default_tokenizer := "tiktoken"
    default_tokenizer_model := "gpt2" }

/-- A Config whose default tokenizer name is the huggingface literal. -/
def hfConfig : Config :=
  { sampleConfig with default_tokenizer := "huggingface" }

/-- A Config with a nonempty default exclude list. -/
def lockConfig : Config :=
  { sampleConfig with default_excludes := [Exclude.Pattern "*.lock"] }

/-- A Cli with token counting disabled and an explicit tokenizer flag. -/
def noTokensTokCli : Cli :=
  { emptyCli with no_tokens := true, tokenizer := some TokenizerType.Tiktoken }

/-- A Cli supplying both a model and a tokenizer file. -/
def modelAndFileCli : Cli :=
  { emptyCli with model := some "bert-base", tokenizer_file := some "tok.json" }

/-- A Cli supplying a tokenizer file but no model. -/
def fileOnlyCli : Cli :=
  { emptyCli with tokenizer_file := some "tok.json" }

theorem parse_with_config_model_eq (cli : Cli) (config : Config) :
    (cli.parse_with_config config).model =
      if (match (cli.parse_with_config config).tokenizer with
          | some t => t.isHuggingFace
          | none => false)
          && cli.model.isNone && cli.tokenizer_file.isNone then
        some config.default_tokenizer_model
      else
        cli.model := rfl

theorem parse_with_config_tokenizer_eq (cli : Cli) (config : Config) :
    (cli.parse_with_config config).tokenizer =
      if !cli.no_tokens && cli.tokenizer.isNone then
        some (if config.default_tokenizer = "huggingface" then
                TokenizerType.HuggingFace
              else
                TokenizerType.Tiktoken)
      else
        cli.tokenizer := rfl

theorem parse_with_config_exclude_eq (cli : Cli) (config : Config) :
    (cli.parse_with_config config).exclude =
      match cli.exclude with
      | some excludes => some (excludes ++ config.default_excludes)
      | none => some config.default_excludes := rfl

theorem parse_with_config_tokenizer_file_eq (cli : Cli) (config : Config) :
    (cli.parse_with_config config).tokenizer_file = cli.tokenizer_file := rfl

theorem parse_with_config_max_size_eq (cli : Cli) (config : Config) :
    (cli.parse_with_config config).max_size =
      cli.max_size.or (some config.max_size) := rfl

theorem parse_with_config_max_depth_eq (cli : Cli) (config : Config) :
    (cli.parse_with_config config).max_depth =
      cli.max_depth.or (some config.max_depth) := rfl

theorem parse_with_config_output_eq (cli : Cli) (config : Config) :
    (cli.parse_with_config config).output =
      cli.output.or (some config.default_output_format) := rfl

/-- C1: for the scalar override fields maxSize, maxDepth and outputFormat, a
present command-line value wins outright and an absent one resolves to the
configuration profile's corresponding default. -/
theorem scalar_override_fields (cli : Cli) (config : Config) :
    (cli.parse_with_config config).max_size =
      some (cli.max_size.getD config.max_size) ∧
    (cli.parse_with_config config).max_depth =
      some (cli.max_depth.getD config.max_depth) ∧
    (cli.parse_with_config config).output =
      some (cli.output.getD config.default_output_format) := by
  refine ⟨?_, ?_, ?_⟩
  · show cli.max_size.or (some config.max_size) = _
    cases cli.max_size <;> rfl
  · show cli.max_depth.or (some config.max_depth) = _
    cases cli.max_depth <;> rfl
  · show cli.output.or (some config.default_output_format) = _
    cases cli.output <;> rfl

/-- C2: the resolved exclude list is the command-line excludes followed by
the configuration defaults, with no deduplication or reordering; with no
command-line excludes it is exactly the configuration's default list. -/
theorem exclude_concat (cli : Cli) (config : Config) :
    (cli.parse_with_config config).exclude =
      some (cli.exclude.getD [] ++ config.default_excludes) ∧
    (cli.exclude = none →
      (cli.parse_with_config config).exclude = some config.default_excludes) := by
  rw [parse_with_config_exclude_eq]
  cases cli.exclude <;> simp

/-- C2 witness: with no command-line excludes the resolved list is the
configuration's default list. -/
theorem exclude_concat_witness :
    (Cli.parse_with_config emptyCli lockConfig).exclude =
      some lockConfig.default_excludes :=
  (exclude_concat emptyCli lockConfig).2 rfl

/-- C3: with token counting enabled and no explicit tokenizer kind, the
resolved kind is HuggingFace exactly when the configuration's default
tokenizer string is the literal huggingface name, and Tiktoken for every
other string; no string value raises an error. -/
theorem tokenizer_default_from_config (cli : Cli) (config : Config)
    (hnt : cli.no_tokens = false) (htok : cli.tokenizer = none) :
    (cli.parse_with_config config).tokenizer =
      some (if config.default_tokenizer = "huggingface" then
              TokenizerType.HuggingFace
            else
              TokenizerType.Tiktoken) := by
  rw [parse_with_config_tokenizer_eq, hnt, htok]
  rfl

/-- C3 witness: an unrecognized default tokenizer name silently resolves to
Tiktoken. -/
theorem tokenizer_default_from_config_witness :
    (Cli.parse_with_config emptyCli sampleConfig).tokenizer =
      some TokenizerType.Tiktoken := by
  have h := tokenizer_default_from_config emptyCli sampleConfig rfl rfl
  simpa [sampleConfig] using h

/-- C4 counterexample: with token counting disabled but an explicit
tokenizer flag supplied, the resolved tokenizer kind is still present, so
disabling token counting does not make it absent regardless of flags. -/
theorem disable_tokens_counterexample :
    noTokensTokCli.no_tokens = true ∧
    (Cli.parse_with_config noTokensTokCli sampleConfig).tokenizer ≠ none := by
  refine ⟨rfl, ?_⟩
  rw [parse_with_config_tokenizer_eq]
  decide

/-- C4 (amended): with token counting disabled and no tokenizer kind or
model supplied on the command line, the resolved tokenizer kind and model
are absent, regardless of the configuration. -/
theorem disable_tokens_absent_when_unspecified (cli : Cli) (config : Config)
    (hnt : cli.no_tokens = true) (htok : cli.tokenizer = none)
    (hm : cli.model = none) :
    (cli.parse_with_config config).tokenizer = none ∧
    (cli.parse_with_config config).model = none := by
  have ht : (cli.parse_with_config config).tokenizer = none := by
    rw [parse_with_config_tokenizer_eq, hnt, htok]
    rfl
  refine ⟨ht, ?_⟩
  rw [parse_with_config_model_eq, ht, hm]
  rfl

/-- C4 witness: disabling token counting with no tokenizer flags yields
absent resolved tokenizer kind and model. -/
theorem disable_tokens_absent_when_unspecified_witness :
    (Cli.parse_with_config { emptyCli with no_tokens := true } hfConfig).tokenizer
      = none ∧
    (Cli.parse_with_config { emptyCli with no_tokens := true } hfConfig).model
      = none :=
  disable_tokens_absent_when_unspecified
    { emptyCli with no_tokens := true } hfConfig rfl rfl rfl

/-- C5: the resolved model is populated from the configuration's default
model string exactly when the resolved tokenizer kind is HuggingFace, no
model was supplied and no tokenizer file was supplied; if any of the three
fails, the resolved model keeps its command-line value. -/
theorem model_dependent_default (cli : Cli) (config : Config) :
    ((cli.parse_with_config config).tokenizer = some TokenizerType.HuggingFace ∧
        cli.model = none ∧ cli.tokenizer_file = none →
      (cli.parse_with_config config).model =
        some config.default_tokenizer_model) ∧
    (¬((cli.parse_with_config config).tokenizer = some TokenizerType.HuggingFace ∧
        cli.model = none ∧ cli.tokenizer_file = none) →
      (cli.parse_with_config config).model = cli.model) := by
  rw [parse_with_config_model_eq]
  constructor
  · rintro ⟨h1, h2, h3⟩
    rw [h1, h2, h3]
    rfl
  · intro h
    cases hm : cli.model with
    | some m => simp
    | none =>
      cases hft : cli.tokenizer_file with
      | some f => simp
      | none =>
        cases ht : (cli.parse_with_config config).tokenizer with
        | none => simp
        | some t =>
          cases t with
          | Tiktoken => simp [TokenizerType.isHuggingFace]
          | HuggingFace => exact absurd ⟨ht, hm, hft⟩ h

/-- C5 witness: with a huggingface default tokenizer, an otherwise empty
command line gets the configuration's default model. -/
theorem model_dependent_default_witness :
    (Cli.parse_with_config emptyCli hfConfig).model =
      some hfConfig.default_tokenizer_model :=
  (model_dependent_default emptyCli hfConfig).1 ⟨by decide, rfl, rfl⟩

/-- C6 counterexample: when both a model and a tokenizer file are supplied
on the command line, the resolved settings carry both, so explicitly
supplying a tokenizer file does not rule out a populated model. -/
theorem model_file_both_counterexample :
    modelAndFileCli.tokenizer_file.isSome = true ∧
    (Cli.parse_with_config modelAndFileCli sampleConfig).model.isSome = true ∧
    (Cli.parse_with_config modelAndFileCli sampleConfig).tokenizer_file.isSome
      = true := by
  decide

/-- C6 (amended): a supplied tokenizer file path blocks defaulting the model
from the configuration: when a tokenizer file is supplied and no model was
supplied on the command line, the resolved model is absent, so the resolved
settings do not have both model and tokenizer file populated. -/
theorem tokenizer_file_blocks_model_default (cli : Cli) (config : Config)
    (hf : cli.tokenizer_file.isSome = true) (hm : cli.model = none) :
    (cli.parse_with_config config).model = none ∧
    ¬((cli.parse_with_config config).model.isSome = true ∧
      (cli.parse_with_config config).tokenizer_file.isSome = true) := by
  have h1 : (cli.parse_with_config config).model = none := by
    rw [parse_with_config_model_eq]
    cases hft : cli.tokenizer_file with
    | none => rw [hft] at hf; simp at hf
    | some f => simp [hm]
  refine ⟨h1, fun hc => ?_⟩
  rw [h1] at hc
  simp at hc

/-- C6 amended witness: a tokenizer file with no model leaves the resolved
model absent even under a huggingface configuration. -/
theorem tokenizer_file_blocks_model_default_witness :
    (Cli.parse_with_config fileOnlyCli hfConfig).model = none ∧
    ¬((Cli.parse_with_config fileOnlyCli hfConfig).model.isSome = true ∧
      (Cli.parse_with_config fileOnlyCli hfConfig).tokenizer_file.isSome
        = true) :=
  tokenizer_file_blocks_model_default fileOnlyCli hfConfig rfl rfl

/-- C7: an exclude token is classified File when the literal string exists
on the filesystem at parse time and Pattern otherwise; existence is checked
first, whatever the string looks like. -/
theorem parse_exclude_classification (fs : String → Bool) (value : String) :
    (fs value = true →
      parse_exclude fs value = Except.ok (Exclude.File value)) ∧
    (fs value = false →
      parse_exclude fs value = Except.ok (Exclude.Pattern value)) := by
  unfold parse_exclude
  constructor <;> intro h <;> simp [h]

/-- C7 witness: a token that exists on disk is classified File even when it
looks like a glob. -/
theorem parse_exclude_classification_witness :
    parse_exclude (fun s => s == "*.rs") "*.rs" =
      Except.ok (Exclude.File "*.rs") :=
  (parse_exclude_classification (fun s => s == "*.rs") "*.rs").1 (by decide)

/-- C8: after resolution, maxSize, maxDepth, outputFormat and excludeEntries
are all non-absent, and the resolved exclude list is empty only when both
the command-line and configuration exclude lists are empty. -/
theorem resolved_defaults_nonabsent (cli : Cli) (config : Config) :
    (cli.parse_with_config config).max_size.isSome = true ∧
    (cli.parse_with_config config).max_depth.isSome = true ∧
    (cli.parse_with_config config).output.isSome = true ∧
    (cli.parse_with_config config).exclude.isSome = true ∧
    ((cli.parse_with_config config).exclude = some [] →
      cli.exclude.getD [] = [] ∧ config.default_excludes = []) := by
  refine ⟨?_, ?_, ?_, ?_, ?_⟩
  · rw [parse_with_config_max_size_eq]
    cases cli.max_size <;> rfl
  · rw [parse_with_config_max_depth_eq]
    cases cli.max_depth <;> rfl
  · rw [parse_with_config_output_eq]
    cases cli.output <;> rfl
  · rw [parse_with_config_exclude_eq]
    cases cli.exclude <;> rfl
  · intro h
    rw [parse_with_config_exclude_eq] at h
    cases he : cli.exclude with
    | none =>
      rw [he] at h
      simp at h
      simp [h]
    | some es =>
      rw [he] at h
      simp at h
      simp [h.1, h.2]

/-- C8 witness: the resolved exclude list is empty at an input where both
sources are empty. -/
theorem resolved_defaults_nonabsent_witness :
    emptyCli.exclude.getD [] = [] ∧ sampleConfig.default_excludes = [] :=
  (resolved_defaults_nonabsent emptyCli sampleConfig).2.2.2.2 rfl

/-- C9: a path argument that does not exist fails validation with a message
naming the offending value, and one that exists validates to itself. -/
theorem validate_path_checks_existence (fs : String → Bool) (path : String) :
    (fs path = false →
      validate_path fs path =
        Except.error ("Path \x27" ++ path ++ "\x27 does not exist")) ∧
    (fs path = true → validate_path fs path = Except.ok path) := by
  unfold validate_path
  constructor <;> intro h <;> simp [h]

/-- C9 witness: an existing path validates to itself and a missing one is
rejected with a message naming it. -/
theorem validate_path_checks_existence_witness :
    validate_path (fun s => s == "src") "src" = Except.ok "src" ∧
    validate_path (fun s => s == "src") "missing" =
      Except.error ("Path \x27" ++ "missing" ++ "\x27 does not exist") :=
  ⟨(validate_path_checks_existence (fun s => s == "src") "src").2 (by decide),
   (validate_path_checks_existence (fun s => s == "src") "missing").1
     (by decide)⟩

/-- C10: the exclude-token classifier is total: every input string is
successfully classified and no input produces an error. -/
theorem parse_exclude_total (fs : String → Bool) (value : String) :
    ∃ e : Exclude, parse_exclude fs value = Except.ok e := by
  unfold parse_exclude
  cases h : fs value with
  | true => exact ⟨Exclude.File value, by simp [h]⟩
  | false => exact ⟨Exclude.Pattern value, by simp [h]⟩
